import Mathlib

/-!
# Verification of the ZC GPA calculator engine (src/app.js)

Shallow embedding of the grade-computation engine of the ZC-GPA-Calc
repository.  JavaScript numbers are modelled as exact rationals (`ℚ`);
a decimal literal such as `3.33` in the source is embedded as the
rational it denotes (`333/100`).  Every verdict proved below is
insensitive to this idealisation: each comparison or (in)equality the
theorems rest on has the same truth value for IEEE doubles as for the
denoted rationals (e.g. `10/3 > 3.33`, `3 * 3.33 ≠ 10`, `5/3 < 1.67`).

A JavaScript value that may be absent or non-numeric (`undefined`,
`NaN`, a missing object field) is modelled with `Option`: `none` stands
for the absent / non-numeric case.
-/

/-- Embedding of `mapNumericToGradePoint` (src/app.js lines 6-27).
`none` models a non-numeric input (`typeof score !== 'number' || isNaN(score)`).
The score is clamped to `[0, 100]` and then run through the descending
threshold chain, first match wins. -/
def mapNumericToGradePoint (score : Option ℚ) : String × ℚ :=
  match score with
  | none => ("Invalid", 0)
  | some s =>
    let score := max 0 (min 100 s)
    if score ≥ 95 then ("A", 4)
    else if score ≥ 90 then ("A-", 11/3)
    else if score ≥ 85 then ("B+", 10/3)
    else if score ≥ 80 then ("B", 3)
    else if score ≥ 75 then ("B-", 8/3)
    else if score ≥ 70 then ("C+", 7/3)
    else if score ≥ 65 then ("C", 2)
    else if score ≥ 60 then ("C-", 5/3)
    else ("F", 0)

/-- The numeric table behind `mapLetterToGradePoint` (src/app.js
lines 34-50): the lookup `gradePoints[letter] ?? 0` restricted to
letters that are not inherited `Object.prototype` property keys.  The
JavaScript property access walks the prototype chain, so on an
inherited key such as "toString" the source returns the inherited
member (not a number); `mapLetterToGradePointJS` below embeds the full
lookup faithfully, and on the nine own keys of the table — the only
letters at which the theorems below use this function — the two agree
(`mapLetterToGradePoint_agree`). -/
def mapLetterToGradePoint (letter : String) : ℚ :=
  if letter = "A" then 4
  else if letter = "A-" then 11/3
  else if letter = "B+" then 10/3
  else if letter = "B" then 3
  else if letter = "B-" then 8/3
  else if letter = "C+" then 7/3
  else if letter = "C" then 2
  else if letter = "C-" then 5/3
  else if letter = "F" then 0
  else 0

/-- The own keys of the `gradePoints` object literal (src/app.js
lines 37-47). -/
def gradeTableKeys : List String :=
  ["A", "A-", "B+", "B", "B-", "C+", "C", "C-", "F"]

/-- The property keys a plain object literal inherits from
`Object.prototype` in a standard ECMAScript environment: the ordinary
methods plus the Annex B accessors.  A lookup `obj[key]` on one of
these keys finds the inherited member (a function, or the prototype
object for "__proto__"); that value is not nullish, so `?? 0` does not
replace it. -/
def objectPrototypeKeys : List String :=
  ["constructor", "hasOwnProperty", "isPrototypeOf", "propertyIsEnumerable",
   "toLocaleString", "toString", "valueOf", "__proto__", "__defineGetter__",
   "__defineSetter__", "__lookupGetter__", "__lookupSetter__"]

/-- The value of the JavaScript expression `gradePoints[letter] ?? 0`
(src/app.js line 49): either a number, or a member inherited from
`Object.prototype`, recorded by its key.  The inherited member is kept
abstract because the only facts used about it are that it is not
nullish (so `??` keeps it) and not a number. -/
inductive JSProperty where
  | num : ℚ → JSProperty
  | inheritedMember : String → JSProperty
deriving DecidableEq

/-- Faithful embedding of `mapLetterToGradePoint`'s body
`gradePoints[letter] ?? 0` (src/app.js line 49): an own key of the
object literal yields its table value; otherwise the access walks the
prototype chain, so an `Object.prototype` key yields the inherited
member, which is not null/undefined and is therefore returned
unchanged by `??`; only a key found nowhere yields undefined, which
`??` replaces with 0. -/
def mapLetterToGradePointJS (letter : String) : JSProperty :=
  if letter = "A" then .num 4
  else if letter = "A-" then .num (11/3)
  else if letter = "B+" then .num (10/3)
  else if letter = "B" then .num 3
  else if letter = "B-" then .num (8/3)
  else if letter = "C+" then .num (7/3)
  else if letter = "C" then .num 2
  else if letter = "C-" then .num (5/3)
  else if letter = "F" then .num 0
  else if letter ∈ objectPrototypeKeys then .inheritedMember letter
  else .num 0

/-- Embedding of `getLetterFromPoint` (src/app.js lines 57-67); the
decimal literals 3.66, 3.33, 2.66, 2.33, 1.67 are the rationals they
denote. -/
def getLetterFromPoint (point : ℚ) : String :=
  if point ≥ 4 then "A"
  else if point ≥ 366/100 then "A-"
  else if point ≥ 333/100 then "B+"
  else if point ≥ 3 then "B"
  else if point ≥ 266/100 then "B-"
  else if point ≥ 233/100 then "C+"
  else if point ≥ 2 then "C"
  else if point ≥ 167/100 then "C-"
  else "F"

/-- An input course row, as consumed by `computeTermGPA`
(the shape produced by `collectCourseData`, src/app.js lines 413-423). -/
structure Course where
  name : String
  credits : ℚ
  score : Option ℚ
  gradePoint : ℚ
  letter : String
  excluded : Bool
  repeated : Bool
deriving DecidableEq

/-- A processed course row as pushed onto `processedCourses` inside
`computeTermGPA` (src/app.js lines 88-92 and 115-122).  `wasCapped` is
an `Option Bool`: `none` models the JavaScript object having no
`wasCapped` field at all (the excluded branch spreads the input and adds
only `qualityPoints` and `status`). -/
structure ProcessedCourse where
  name : String
  credits : ℚ
  score : Option ℚ
  gradePoint : ℚ
  letter : String
  excluded : Bool
  repeated : Bool
  qualityPoints : ℚ
  wasCapped : Option Bool
  status : String
deriving DecidableEq

/-- The condition of the repeated-course cap (src/app.js line 102):
`course.repeated && gradePoint > 3.33`.  Note the source literal is
`3.33`, embedded as `333/100`. -/
def repeatCapApplies (course : Course) : Bool :=
  course.repeated && decide ((333:ℚ)/100 < course.gradePoint)

/-- The per-course body of the loop in `computeTermGPA`
(src/app.js lines 85-123), producing the record pushed onto
`processedCourses`.  The excluded branch (lines 88-92) adds only
`qualityPoints = 0` and `status = 'excluded'` to the spread input; the
other branch applies the repeat cap (lines 102-106, capping at the
literal `3.33`), computes `qualityPoints = credits * gradePoint`
(line 109), and annotates (lines 115-122). -/
def processCourse (course : Course) : ProcessedCourse :=
  if course.excluded then
    { name := course.name, credits := course.credits, score := course.score
      gradePoint := course.gradePoint, letter := course.letter
      excluded := course.excluded, repeated := course.repeated
      qualityPoints := 0, wasCapped := none, status := "excluded" }
  else
    let capped := repeatCapApplies course
    let gradePoint := if capped then (333:ℚ)/100 else course.gradePoint
    let letter := if capped then "B+" else course.letter
    { name := course.name, credits := course.credits, score := course.score
      gradePoint := gradePoint, letter := letter
      excluded := course.excluded, repeated := course.repeated
      qualityPoints := course.credits * gradePoint
      wasCapped := some capped
      status := if capped then "capped" else "included" }

/-- One iteration of the `for` loop of `computeTermGPA`: the running
state is `(totalCredits, totalQualityPoints, processedCourses)`.
An excluded course pushes its processed record and leaves the totals
alone (`continue`); any other course adds its credits and quality
points to the totals and pushes its processed record. -/
def termStep (acc : ℚ × ℚ × List ProcessedCourse) (course : Course) :
    ℚ × ℚ × List ProcessedCourse :=
  if course.excluded then
    (acc.1, acc.2.1, acc.2.2 ++ [processCourse course])
  else
    (acc.1 + course.credits,
     acc.2.1 + (processCourse course).qualityPoints,
     acc.2.2 ++ [processCourse course])

/-- The result record of `computeTermGPA` (src/app.js lines 128-133). -/
structure TermResult where
  gpa : ℚ
  totalCredits : ℚ
  totalQualityPoints : ℚ
  courses : List ProcessedCourse
deriving DecidableEq

/-- Embedding of `computeTermGPA` (src/app.js lines 80-134): fold the
loop body over the rows starting from zero totals and an empty list,
then `gpa = totalCredits > 0 ? totalQualityPoints / totalCredits : 0`
(line 126). -/
def computeTermGPA (courseRows : List Course) : TermResult :=
  let acc := courseRows.foldl termStep (0, 0, [])
  { gpa := if 0 < acc.1 then acc.2.1 / acc.1 else 0
    totalCredits := acc.1
    totalQualityPoints := acc.2.1
    courses := acc.2.2 }

/-- The result record of `computeNewCGPA` (src/app.js lines 161-166). -/
structure CGPAResult where
  cgpa : ℚ
  totalCredits : ℚ
  totalQualityPoints : ℚ
  prevQualityPoints : ℚ
deriving DecidableEq

/-- Embedding of `computeNewCGPA` (src/app.js lines 147-167).  The
optional fifth JavaScript parameter (default `null`) is an `Option ℚ`,
`none` standing for `null`/omitted. -/
def computeNewCGPA (prevCGPA prevCredits termQualityPoints termCredits : ℚ)
    (prevQualityPoints : Option ℚ) : CGPAResult :=
  let calculatedPrevQP :=
    match prevQualityPoints with
    | some qp => qp
    | none => prevCGPA * prevCredits
  let newTotalQualityPoints := calculatedPrevQP + termQualityPoints
  let newTotalCredits := prevCredits + termCredits
  let cgpa := if 0 < newTotalCredits then newTotalQualityPoints / newTotalCredits else 0
  { cgpa := cgpa
    totalCredits := newTotalCredits
    totalQualityPoints := newTotalQualityPoints
    prevQualityPoints := calculatedPrevQP }

/-- A 3-credit repeated course whose grade came from the numeric mapper
at score 98: `mapNumericToGradePoint 98 = ("A", 4)`.  This is the
scenario of spec section 8 ("3 credits at score 98 ... with repeated"). -/
def courseA98Repeated : Course :=
  { name := "CSAI 101", credits := 3, score := some 98, gradePoint := 4, letter := "A",
    excluded := false, repeated := true }

/-- A 3-credit repeated course that earned exactly B+ = 10/3 through the
letter mapper. -/
def courseBPlusRepeated : Course :=
  { name := "MATH 201", credits := 3, score := none, gradePoint := 10/3, letter := "B+",
    excluded := false, repeated := true }

/-- A 4-credit repeated course that earned C = 2 through the letter
mapper. -/
def courseCRepeated : Course :=
  { name := "PHYS 102", credits := 4, score := none, gradePoint := 2, letter := "C",
    excluded := false, repeated := true }

/-- An excluded (withdrawn) course that is also flagged repeated, with
an A grade on record. -/
def courseExcludedA : Course :=
  { name := "HUMA 103", credits := 3, score := none, gradePoint := 4, letter := "A",
    excluded := true, repeated := true }

/-- A plain included 3-credit B course. -/
def courseBPlain : Course :=
  { name := "CSCI 104", credits := 3, score := none, gradePoint := 3, letter := "B",
    excluded := false, repeated := false }

/-- Running the `computeTermGPA` loop from an arbitrary state: the
totals add the contributions of the non-excluded rows and the processed
records are appended in input order. -/
theorem foldl_termStep (rows : List Course) (a b : ℚ) (l : List ProcessedCourse) :
    rows.foldl termStep (a, b, l) =
      (a + ((rows.filter fun c => !c.excluded).map Course.credits).sum,
       b + ((rows.filter fun c => !c.excluded).map
          fun c => (processCourse c).qualityPoints).sum,
       l ++ rows.map processCourse) := by
  induction rows generalizing a b l with
  | nil => simp
  | cons c rest ih =>
    rcases Bool.eq_false_or_eq_true c.excluded with hc | hc
    · simp [termStep, hc, ih, List.filter_cons, add_assoc]
    · simp [termStep, hc, ih, List.filter_cons, add_assoc]

/-- `totalCredits` is the sum of the credits of the non-excluded rows. -/
theorem computeTermGPA_totalCredits (rows : List Course) :
    (computeTermGPA rows).totalCredits =
      ((rows.filter fun c => !c.excluded).map Course.credits).sum := by
  simp [computeTermGPA, foldl_termStep]

/-- `totalQualityPoints` is the sum of the quality points of the
non-excluded rows. -/
theorem computeTermGPA_totalQualityPoints (rows : List Course) :
    (computeTermGPA rows).totalQualityPoints =
      ((rows.filter fun c => !c.excluded).map
        fun c => (processCourse c).qualityPoints).sum := by
  simp [computeTermGPA, foldl_termStep]

/-- The output course list is the input list processed course by course,
in input order. -/
theorem computeTermGPA_courses (rows : List Course) :
    (computeTermGPA rows).courses = rows.map processCourse := by
  simp [computeTermGPA, foldl_termStep]

/-- The gpa field as a function of the total fields (src/app.js line 126). -/
theorem computeTermGPA_gpa (rows : List Course) :
    (computeTermGPA rows).gpa =
      if 0 < (computeTermGPA rows).totalCredits then
        (computeTermGPA rows).totalQualityPoints / (computeTermGPA rows).totalCredits
      else 0 := rfl

/-- Clamping is the identity on `[0, 100]`. -/
theorem clamp_of_mem (s : ℚ) (h0 : 0 ≤ s) (h1 : s ≤ 100) :
    max 0 (min 100 s) = s := by
  rw [min_eq_right h1, max_eq_right h0]

/-- On the nine own keys of the table, the full prototype-chain lookup
agrees with the numeric restriction `mapLetterToGradePoint`. -/
theorem mapLetterToGradePoint_agree (l : String) (hl : l ∈ gradeTableKeys) :
    mapLetterToGradePointJS l = JSProperty.num (mapLetterToGradePoint l) := by
  simp only [gradeTableKeys, List.mem_cons, List.not_mem_nil, or_false] at hl
  rcases hl with rfl | rfl | rfl | rfl | rfl | rfl | rfl | rfl | rfl <;> rfl

/-- C5: `computeNewCGPA` takes `prevQualityPoints` verbatim when it is
provided (not null), and `prevCGPA * prevCredits` otherwise; the new
totals are `prevCredits + termCredits` and `previousQualityPoints +
termQualityPoints`, and the cgpa is their quotient when the new total
credits are positive, else 0. -/
theorem spec_C5 :
    ∀ (prevCGPA prevCredits termQP termCredits q : ℚ) (opt : Option ℚ),
    (computeNewCGPA prevCGPA prevCredits termQP termCredits (some q)).prevQualityPoints
        = q ∧
    (computeNewCGPA prevCGPA prevCredits termQP termCredits none).prevQualityPoints
        = prevCGPA * prevCredits ∧
    (computeNewCGPA prevCGPA prevCredits termQP termCredits opt).totalCredits
        = prevCredits + termCredits ∧
    (computeNewCGPA prevCGPA prevCredits termQP termCredits opt).totalQualityPoints
        = (computeNewCGPA prevCGPA prevCredits termQP termCredits opt).prevQualityPoints
            + termQP ∧
    (0 < prevCredits + termCredits →
      (computeNewCGPA prevCGPA prevCredits termQP termCredits opt).cgpa
        = (computeNewCGPA prevCGPA prevCredits termQP termCredits opt).totalQualityPoints
            / (prevCredits + termCredits)) ∧
    (¬ 0 < prevCredits + termCredits →
      (computeNewCGPA prevCGPA prevCredits termQP termCredits opt).cgpa = 0) := by
  intro p pc tq tc q opt
  refine ⟨rfl, rfl, ?_, ?_, ?_, ?_⟩
  · cases opt <;> rfl
  · cases opt <;> rfl
  · intro h
    cases opt <;> simp [computeNewCGPA, h]
  · intro h
    cases opt <;> simp [computeNewCGPA, h]

/-- C5 witness: the spec scenario prevGPA = 3, prevCredits = 30,
term adds 11 quality points over 3 credits, yielding cgpa 101/33. -/
theorem spec_C5_witness :
    (computeNewCGPA 3 30 11 3 none).cgpa = 101/33 ∧
    (computeNewCGPA 3 30 11 3 (some 7)).prevQualityPoints = 7 := by
  have h := spec_C5 3 30 11 3 7 none
  refine ⟨?_, (spec_C5 3 30 11 3 7 (some 7)).1⟩
  rw [h.2.2.2.2.1 (by norm_num), h.2.2.2.1, h.2.1]
  norm_num

/-- C7: the engine degrades gracefully at the edges: a non-numeric
score maps to ("Invalid", 0); the empty course list yields zero totals
and gpa 0; and whenever the accumulated `totalCredits` is 0 the gpa is
the explicit value 0 (the guarded division of src/app.js line 126),
never an error or a division by zero.  Totality of the Lean functions
is the no-exception part of the claim. -/
theorem spec_C7 :
    mapNumericToGradePoint none = ("Invalid", 0) ∧
    (computeTermGPA []).totalCredits = 0 ∧
    (computeTermGPA []).totalQualityPoints = 0 ∧
    (computeTermGPA []).courses = [] ∧
    (computeTermGPA []).gpa = 0 ∧
    ∀ rows : List Course,
      (computeTermGPA rows).totalCredits = 0 → (computeTermGPA rows).gpa = 0 := by
  refine ⟨rfl, rfl, rfl, rfl, ?_, ?_⟩
  · rw [computeTermGPA_gpa]
    norm_num [computeTermGPA, foldl_termStep]
  · intro rows h
    rw [computeTermGPA_gpa, h]
    norm_num

/-- C7 witness: the zero-credit guard applied to the empty course list. -/
theorem spec_C7_witness : (computeTermGPA []).gpa = 0 :=
  spec_C7.2.2.2.2.2 [] rfl

/-- C8 counterexample: at the unknown letter "toString" the source
lookup `gradePoints[letter] ?? 0` (src/app.js line 49) finds the
inherited `Object.prototype.toString` member through the prototype
chain; that member is not nullish, so `??` keeps it and the function
returns it — a function, not the claimed 0. -/
theorem C8_counterexample :
    mapLetterToGradePointJS "toString" = JSProperty.inheritedMember "toString" ∧
    JSProperty.inheritedMember "toString" ≠ JSProperty.num 0 := by
  exact ⟨rfl, by decide⟩

/-- C8 amended: the letter table is A=4, A-=11/3, B+=10/3, B=3,
B-=8/3, C+=7/3, C=2, C-=5/3, F=0, and three times each table value is
the integer 12, 11, 10, 9, 8, 7, 6, 5, 0 respectively; an unknown
letter (the empty string included) yields 0 without error only when it
is not an inherited `Object.prototype` property key — on an inherited
key the lookup returns the inherited member rather than 0. -/
theorem C8_amended :
    mapLetterToGradePointJS "A" = JSProperty.num 4 ∧
    mapLetterToGradePointJS "A-" = JSProperty.num (11/3) ∧
    mapLetterToGradePointJS "B+" = JSProperty.num (10/3) ∧
    mapLetterToGradePointJS "B" = JSProperty.num 3 ∧
    mapLetterToGradePointJS "B-" = JSProperty.num (8/3) ∧
    mapLetterToGradePointJS "C+" = JSProperty.num (7/3) ∧
    mapLetterToGradePointJS "C" = JSProperty.num 2 ∧
    mapLetterToGradePointJS "C-" = JSProperty.num (5/3) ∧
    mapLetterToGradePointJS "F" = JSProperty.num 0 ∧
    mapLetterToGradePointJS "" = JSProperty.num 0 ∧
    (∀ l : String, l ∉ gradeTableKeys → l ∉ objectPrototypeKeys →
      mapLetterToGradePointJS l = JSProperty.num 0) ∧
    (∀ l : String, l ∈ objectPrototypeKeys →
      mapLetterToGradePointJS l = JSProperty.inheritedMember l) ∧
    3 * mapLetterToGradePoint "A" = 12 ∧
    3 * mapLetterToGradePoint "A-" = 11 ∧
    3 * mapLetterToGradePoint "B+" = 10 ∧
    3 * mapLetterToGradePoint "B" = 9 ∧
    3 * mapLetterToGradePoint "B-" = 8 ∧
    3 * mapLetterToGradePoint "C+" = 7 ∧
    3 * mapLetterToGradePoint "C" = 6 ∧
    3 * mapLetterToGradePoint "C-" = 5 ∧
    3 * mapLetterToGradePoint "F" = 0 := by
  refine ⟨rfl, rfl, rfl, rfl, rfl, rfl, rfl, rfl, rfl, rfl, ?_, ?_, ?_, ?_, ?_, ?_,
    ?_, ?_, ?_, ?_, ?_⟩
  · intro l h1 h2
    simp only [gradeTableKeys, List.mem_cons, List.not_mem_nil, or_false, not_or] at h1
    obtain ⟨e1, e2, e3, e4, e5, e6, e7, e8, e9⟩ := h1
    simp [mapLetterToGradePointJS, e1, e2, e3, e4, e5, e6, e7, e8, e9, h2]
  · intro l hl
    simp only [objectPrototypeKeys, List.mem_cons, List.not_mem_nil, or_false] at hl
    rcases hl with rfl | rfl | rfl | rfl | rfl | rfl | rfl | rfl | rfl | rfl | rfl | rfl <;>
      rfl
  all_goals
    norm_num [show mapLetterToGradePoint "A" = 4 from rfl,
      show mapLetterToGradePoint "A-" = 11/3 from rfl,
      show mapLetterToGradePoint "B+" = 10/3 from rfl,
      show mapLetterToGradePoint "B" = 3 from rfl,
      show mapLetterToGradePoint "B-" = 8/3 from rfl,
      show mapLetterToGradePoint "C+" = 7/3 from rfl,
      show mapLetterToGradePoint "C" = 2 from rfl,
      show mapLetterToGradePoint "C-" = 5/3 from rfl,
      show mapLetterToGradePoint "F" = 0 from rfl]

/-- C8 amended witness: the two unknown-letter branches at concrete
keys: "Z" is in neither list and yields 0; "valueOf" is an inherited
`Object.prototype` key and yields the inherited member. -/
theorem C8_amended_witness :
    mapLetterToGradePointJS "Z" = JSProperty.num 0 ∧
    mapLetterToGradePointJS "valueOf" = JSProperty.inheritedMember "valueOf" :=
  ⟨C8_amended.2.2.2.2.2.2.2.2.2.2.1 "Z" (by decide) (by decide),
   C8_amended.2.2.2.2.2.2.2.2.2.2.2.1 "valueOf" (by decide)⟩

/-- C9 counterexample: the round trip fails at C-: the forward table
gives 5/3 and `getLetterFromPoint` demands at least the rounded decimal
1.67 = 167/100 > 5/3, so it falls through to "F", not "C-". -/
theorem C9_counterexample :
    getLetterFromPoint (mapLetterToGradePoint "C-") ≠ "C-" := by
  rw [show mapLetterToGradePoint "C-" = 5/3 from rfl]
  norm_num [getLetterFromPoint]
  decide

/-- C9 amended: the display inverse round trip
`getLetterFromPoint (mapLetterToGradePoint x) = x` holds for the eight
letters A, A-, B+, B, B-, C+, C, F, but for C- it yields "F", because
5/3 falls below the rounded threshold 1.67. -/
theorem C9_amended :
    getLetterFromPoint (mapLetterToGradePoint "A") = "A" ∧
    getLetterFromPoint (mapLetterToGradePoint "A-") = "A-" ∧
    getLetterFromPoint (mapLetterToGradePoint "B+") = "B+" ∧
    getLetterFromPoint (mapLetterToGradePoint "B") = "B" ∧
    getLetterFromPoint (mapLetterToGradePoint "B-") = "B-" ∧
    getLetterFromPoint (mapLetterToGradePoint "C+") = "C+" ∧
    getLetterFromPoint (mapLetterToGradePoint "C") = "C" ∧
    getLetterFromPoint (mapLetterToGradePoint "F") = "F" ∧
    getLetterFromPoint (mapLetterToGradePoint "C-") = "F" := by
  refine ⟨?_, ?_, ?_, ?_, ?_, ?_, ?_, ?_, ?_⟩ <;>
    norm_num [show mapLetterToGradePoint "A" = 4 from rfl,
      show mapLetterToGradePoint "A-" = 11/3 from rfl,
      show mapLetterToGradePoint "B+" = 10/3 from rfl,
      show mapLetterToGradePoint "B" = 3 from rfl,
      show mapLetterToGradePoint "B-" = 8/3 from rfl,
      show mapLetterToGradePoint "C+" = 7/3 from rfl,
      show mapLetterToGradePoint "C" = 2 from rfl,
      show mapLetterToGradePoint "C-" = 5/3 from rfl,
      show mapLetterToGradePoint "F" = 0 from rfl,
      getLetterFromPoint]

set_option maxHeartbeats 3200000 in
/-- C4: `mapNumericToGradePoint` clamps to `[0, 100]` and then applies
the inclusive-lower-bound threshold table, so it is monotone
non-decreasing and the letter transitions fall exactly at
60, 65, 70, 75, 80, 85, 90 and 95. -/
theorem spec_C4 :
    (∀ s : ℚ, mapNumericToGradePoint (some s) =
        mapNumericToGradePoint (some (max 0 (min 100 s)))) ∧
    (∀ s : ℚ, 95 ≤ s → s ≤ 100 → mapNumericToGradePoint (some s) = ("A", 4)) ∧
    (∀ s : ℚ, 90 ≤ s → s < 95 → mapNumericToGradePoint (some s) = ("A-", 11/3)) ∧
    (∀ s : ℚ, 85 ≤ s → s < 90 → mapNumericToGradePoint (some s) = ("B+", 10/3)) ∧
    (∀ s : ℚ, 80 ≤ s → s < 85 → mapNumericToGradePoint (some s) = ("B", 3)) ∧
    (∀ s : ℚ, 75 ≤ s → s < 80 → mapNumericToGradePoint (some s) = ("B-", 8/3)) ∧
    (∀ s : ℚ, 70 ≤ s → s < 75 → mapNumericToGradePoint (some s) = ("C+", 7/3)) ∧
    (∀ s : ℚ, 65 ≤ s → s < 70 → mapNumericToGradePoint (some s) = ("C", 2)) ∧
    (∀ s : ℚ, 60 ≤ s → s < 65 → mapNumericToGradePoint (some s) = ("C-", 5/3)) ∧
    (∀ s : ℚ, 0 ≤ s → s < 60 → mapNumericToGradePoint (some s) = ("F", 0)) ∧
    (∀ x y : ℚ, x ≤ y →
      (mapNumericToGradePoint (some x)).2 ≤ (mapNumericToGradePoint (some y)).2) := by
  refine ⟨?_, ?_, ?_, ?_, ?_, ?_, ?_, ?_, ?_, ?_, ?_⟩
  · intro s
    simp only [mapNumericToGradePoint]
    have h1 : min 100 (max 0 (min 100 s)) = max 0 (min 100 s) := by
      rw [min_eq_right]
      exact max_le (by norm_num) (min_le_left 100 s)
    have h2 : max 0 (max 0 (min 100 s)) = max 0 (min 100 s) := by
      rw [max_eq_right (le_max_left 0 (min 100 s))]
    rw [h1, h2]
  all_goals
    try
      first
      | (intro s hs1 hs2
         have h0 : (0:ℚ) ≤ s := by linarith
         have h100 : s ≤ 100 := by linarith
         simp only [mapNumericToGradePoint]
         rw [clamp_of_mem s h0 h100]
         split_ifs <;> first | rfl | (exfalso; linarith))
  intro x y hxy
  have hmono : max 0 (min 100 x) ≤ max 0 (min 100 y) :=
    max_le_max le_rfl (min_le_min le_rfl hxy)
  simp only [mapNumericToGradePoint]
  split_ifs <;> first | (exfalso; linarith) | norm_num

/-- C4 witness: the table at the 60 transition and monotonicity across
it. -/
theorem spec_C4_witness :
    mapNumericToGradePoint (some 60) = ("C-", 5/3) ∧
    (mapNumericToGradePoint (some 59)).2 ≤ (mapNumericToGradePoint (some 95)).2 :=
  ⟨spec_C4.2.2.2.2.2.2.2.2.1 60 (by norm_num) (by norm_num),
   spec_C4.2.2.2.2.2.2.2.2.2.2 59 95 (by norm_num)⟩

/-- C1: evaluation of the embedded code at the claim's own scenario
(3 credits, score 98 so grade point 4, repeated).  The source caps at
the decimal literal `3.33` (src/app.js line 103), not at the exact
rational `10/3`, so the quality points are `3 * 3.33 = 9.99`, not 10.
This contradicts the code's own comment (src/app.js line 36: "3 credits
x B+ (10/3) = 10 QP exactly, not 9.99"). -/
theorem C1_code_eval :
    (mapNumericToGradePoint (some 98)).2 = 4 ∧
    (computeTermGPA [courseA98Repeated]).courses.map ProcessedCourse.gradePoint
      = [333/100] ∧
    (computeTermGPA [courseA98Repeated]).courses.map ProcessedCourse.letter = ["B+"] ∧
    (computeTermGPA [courseA98Repeated]).courses.map ProcessedCourse.wasCapped
      = [some true] ∧
    (computeTermGPA [courseA98Repeated]).courses.map ProcessedCourse.status
      = ["capped"] ∧
    (computeTermGPA [courseA98Repeated]).totalQualityPoints = 999/100 ∧
    (999:ℚ)/100 ≠ 10 ∧ (333:ℚ)/100 ≠ 10/3 := by
  norm_num [mapNumericToGradePoint, computeTermGPA, termStep, processCourse,
    repeatCapApplies, courseA98Repeated]

/-- C2: evaluation of the embedded code at a repeated course that
earned exactly B+ = 10/3.  Because the source compares against the
decimal `3.33` (src/app.js line 102) and `10/3 > 3.33`, the record is
spuriously capped: its grade point is lowered to 3.33, `wasCapped`
becomes true and the status becomes "capped", where the claim says the
cap must be a no-op at grade point 10/3. -/
theorem C2_code_eval :
    mapLetterToGradePoint "B+" = 10/3 ∧
    (333:ℚ)/100 < 10/3 ∧
    (computeTermGPA [courseBPlusRepeated]).courses.map ProcessedCourse.wasCapped
      = [some true] ∧
    (computeTermGPA [courseBPlusRepeated]).courses.map ProcessedCourse.status
      = ["capped"] ∧
    (computeTermGPA [courseBPlusRepeated]).courses.map ProcessedCourse.gradePoint
      = [333/100] ∧
    (333:ℚ)/100 ≠ 10/3 ∧
    (computeTermGPA [courseCRepeated]).courses.map ProcessedCourse.wasCapped
      = [some false] ∧
    (computeTermGPA [courseCRepeated]).courses.map ProcessedCourse.gradePoint = [2] ∧
    (computeTermGPA [courseCRepeated]).courses.map ProcessedCourse.status
      = ["included"] := by
  refine ⟨rfl, by norm_num, ?_⟩
  norm_num [computeTermGPA, termStep, processCourse, repeatCapApplies,
    courseBPlusRepeated, courseCRepeated]

/-- C3: evaluation of the embedded code at a non-excluded repeated
record whose grade point 4 came from the numeric mapper at score 98:
the repeat cap (src/app.js line 103) resolves its grade point to the
decimal 3.33 = 333/100, which is none of the nine canonical grade
points {0, 5/3, 2, 7/3, 8/3, 3, 10/3, 11/3, 4}. -/
theorem C3_code_eval :
    (mapNumericToGradePoint (some 98)).2 = 4 ∧
    (computeTermGPA [courseA98Repeated]).courses.map ProcessedCourse.gradePoint
      = [333/100] ∧
    (computeTermGPA [courseA98Repeated]).courses.map ProcessedCourse.excluded
      = [false] ∧
    (333:ℚ)/100 ∉ ([0, 5/3, 2, 7/3, 8/3, 3, 10/3, 11/3, 4] : List ℚ) := by
  refine ⟨?_, ?_, ?_, ?_⟩ <;>
    norm_num [mapNumericToGradePoint, computeTermGPA, termStep, processCourse,
      repeatCapApplies, courseA98Repeated]

/-- C6: excluded records contribute nothing to either total, whatever
their repeated flag, grade or credits: the totals range over exactly
the non-excluded records, and every excluded record still shows up in
the output list with `qualityPoints = 0` and status "excluded". -/
theorem spec_C6 :
    ∀ rows : List Course,
    (computeTermGPA rows).totalCredits =
      ((rows.filter fun c => !c.excluded).map Course.credits).sum ∧
    (computeTermGPA rows).totalQualityPoints =
      ((rows.filter fun c => !c.excluded).map
        fun c => (processCourse c).qualityPoints).sum ∧
    (computeTermGPA rows).courses = rows.map processCourse ∧
    ∀ c : Course, c.excluded = true →
      (processCourse c).qualityPoints = 0 ∧
      (processCourse c).status = "excluded" ∧
      (processCourse c).excluded = true := by
  intro rows
  refine ⟨computeTermGPA_totalCredits rows, computeTermGPA_totalQualityPoints rows,
    computeTermGPA_courses rows, ?_⟩
  intro c hc
  simp [processCourse, hc]

/-- C6 witness: a term made of an excluded repeated A course and an
included B course counts only the B course in the totals, yet keeps
both records in the output. -/
theorem spec_C6_witness :
    (computeTermGPA [courseExcludedA, courseBPlain]).totalCredits = 3 ∧
    (computeTermGPA [courseExcludedA, courseBPlain]).totalQualityPoints = 9 ∧
    (computeTermGPA [courseExcludedA, courseBPlain]).courses =
      [processCourse courseExcludedA, processCourse courseBPlain] ∧
    (processCourse courseExcludedA).qualityPoints = 0 ∧
    (processCourse courseExcludedA).status = "excluded" := by
  have h := spec_C6 [courseExcludedA, courseBPlain]
  have he := h.2.2.2 courseExcludedA rfl
  refine ⟨?_, ?_, ?_, he.1, he.2.1⟩
  · rw [h.1]
    norm_num [courseExcludedA, courseBPlain]
  · rw [h.2.1]
    norm_num [courseExcludedA, courseBPlain, processCourse, repeatCapApplies]
  · rw [h.2.2.1]
    rfl

/-- C10 counterexample: for a single excluded input record the
processed output record carries no `wasCapped` field at all (the
excluded branch of src/app.js lines 88-92 spreads the input and adds
only `qualityPoints` and `status`), refuting "every output record,
including excluded ones, carries ... wasCapped". -/
theorem C10_counterexample :
    (computeTermGPA [courseExcludedA]).courses.map ProcessedCourse.wasCapped
      = [none] ∧
    (computeTermGPA [courseExcludedA]).courses.map ProcessedCourse.status
      = ["excluded"] := by
  norm_num [computeTermGPA, termStep, processCourse, courseExcludedA]

/-- C10 amended: the output list is the input list in order, record by
record; every record keeps its input `name`, `credits`, `score`,
`excluded` and `repeated` fields and gains `qualityPoints` and
`status`; a non-excluded record additionally gains the resolved
`gradePoint`, `letter` and a `wasCapped` field; an excluded record
keeps its input `gradePoint` and `letter` and carries no `wasCapped`
field. -/
theorem C10_amended :
    ∀ rows : List Course,
    (computeTermGPA rows).courses = rows.map processCourse ∧
    ∀ c : Course,
      (processCourse c).name = c.name ∧
      (processCourse c).credits = c.credits ∧
      (processCourse c).score = c.score ∧
      (processCourse c).excluded = c.excluded ∧
      (processCourse c).repeated = c.repeated ∧
      (c.excluded = true →
        (processCourse c).wasCapped = none ∧
        (processCourse c).gradePoint = c.gradePoint ∧
        (processCourse c).letter = c.letter ∧
        (processCourse c).qualityPoints = 0 ∧
        (processCourse c).status = "excluded") ∧
      (c.excluded = false →
        (processCourse c).wasCapped = some (repeatCapApplies c) ∧
        (processCourse c).gradePoint =
          (if repeatCapApplies c then (333:ℚ)/100 else c.gradePoint) ∧
        (processCourse c).letter = (if repeatCapApplies c then "B+" else c.letter) ∧
        (processCourse c).qualityPoints = c.credits * (processCourse c).gradePoint ∧
        (processCourse c).status =
          (if repeatCapApplies c then "capped" else "included")) := by
  intro rows
  refine ⟨computeTermGPA_courses rows, ?_⟩
  intro c
  rcases Bool.eq_false_or_eq_true c.excluded with hc | hc <;>
    simp [processCourse, hc]

/-- C10 amended witness: the two branches at concrete records: the
excluded record has no `wasCapped` field, the included repeated one
has `wasCapped = some true`. -/
theorem C10_amended_witness :
    (processCourse courseExcludedA).wasCapped = none ∧
    (processCourse courseA98Repeated).wasCapped = some true := by
  have h1 := ((C10_amended []).2 courseExcludedA).2.2.2.2.2.1 rfl
  have h2 := ((C10_amended []).2 courseA98Repeated).2.2.2.2.2.2 rfl
  refine ⟨h1.1, ?_⟩
  rw [h2.1]
  norm_num [repeatCapApplies, courseA98Repeated]
